import Mathlib

/-!
Verification of the lancedb table engine core against its natural-language
specification.  Definitions are shallow embeddings of the Rust sources under
`src/rust/lancedb/src/` (`table.rs`, `table/merge.rs`, `index.rs`, `query.rs`).
Substrate pieces (the lance dataset crate) and repository files not provided
(`utils.rs`, `error.rs`) are modelled from the spec where needed; each such
definition is marked `Modelled from the spec:` in its doc comment.
-/

set_option maxHeartbeats 1000000

/-- Arrow time unit (arrow_schema::TimeUnit), payload only. -/
inductive TimeUnit where
  | Second
  | Millisecond
  | Microsecond
  | Nanosecond
deriving DecidableEq, Repr

/-- Arrow data types recognized by this core (arrow_schema::DataType, restricted to the
constructors the engine inspects plus representative others such as LargeUtf8 and Binary).
FixedSizeList carries its element type and the i32 list size. -/
inductive DataType where
  | Int8
  | Int16
  | Int32
  | Int64
  | UInt8
  | UInt16
  | UInt32
  | UInt64
  | Float16
  | Float32
  | Float64
  | Boolean
  | Utf8
  | LargeUtf8
  | Binary
  | Date32
  | Date64
  | Time32 (unit : TimeUnit)
  | Time64 (unit : TimeUnit)
  | Timestamp (unit : TimeUnit) (tz : Option String)
  | FixedSizeList (item : DataType) (dim : Int)
deriving DecidableEq, Repr

/-- arrow DataType::is_floating. -/
def DataType.is_floating : DataType → Bool
  | .Float16 => true
  | .Float32 => true
  | .Float64 => true
  | _ => false

/-- arrow DataType::is_integer. -/
def DataType.is_integer : DataType → Bool
  | .Int8 => true
  | .Int16 => true
  | .Int32 => true
  | .Int64 => true
  | .UInt8 => true
  | .UInt16 => true
  | .UInt32 => true
  | .UInt64 => true
  | _ => false

/-- Arrow field: only the name and data type are inspected by the engine
(nullability and metadata are never read by the code under study). -/
structure ArrowField where
  name : String
  data_type : DataType
deriving DecidableEq, Repr

/-- Arrow schema: an ordered list of fields. -/
structure ArrowSchema where
  fields : List ArrowField
deriving DecidableEq, Repr

/-- arrow Schema::field-by-name lookup (first field with the given name). -/
def ArrowSchema.field (s : ArrowSchema) (name : String) : Option ArrowField :=
  s.fields.find? (fun f => f.name == name)

/-- Rust `usize as i32` cast: wrap modulo 2^32 into the signed range. -/
def usizeToI32 (n : Nat) : Int :=
  let m : Nat := n % 2 ^ 32
  if m < 2 ^ 31 then (m : Int) else (m : Int) - 2 ^ 32

/-- Rust `usize as i64` cast: wrap modulo 2^64 into the signed range. -/
def usizeToI64 (n : Nat) : Int :=
  let m : Nat := n % 2 ^ 64
  if m < 2 ^ 63 then (m : Int) else (m : Int) - 2 ^ 64

/-- Modelled from the spec: the unified error taxonomy of section 7 (`error.rs` is not
among the provided sources).  The extra `Arrow` variant carries pass-through conversions
of arrow errors (e.g. a failed `Schema::field_with_name` lookup), which the spec's
taxonomy does not name. -/
inductive Error where
  | TableNotFound (name : String)
  | TableAlreadyExists (name : String)
  | InvalidTableName (name : String)
  | InvalidInput (message : String)
  | Schema (message : String)
  | Store (message : String)
  | Lance (message : String)
  | IndexAlreadyExists
  | Arrow (message : String)
deriving DecidableEq, Repr

/-- arrow Schema::field_with_name: the fallible lookup used by the index builders
(the arrow error is converted into the pass-through `Arrow` variant). -/
def ArrowSchema.field_with_name (s : ArrowSchema) (name : String) : Except Error ArrowField :=
  match s.field name with
  | some f => .ok f
  | none => .error (.Arrow s!"Unable to get field named {name}")

/-- index.rs: suggested_num_sub_vectors. -/
def suggested_num_sub_vectors (dim : Nat) : Nat :=
  if dim % 16 = 0 then
    dim / 16
  else if dim % 8 = 0 then
    dim / 8
  else
    -- Source also emits log::warn! here (PQ SIMD lanes not aligned).
    1

/-- C7: for every vector dimension dim ≥ 1, the inferred default num_sub_vectors is
dim/16 when 16 divides dim, otherwise dim/8 when 8 divides dim, and otherwise 1. -/
theorem suggested_num_sub_vectors_rule (dim : Nat) (hdim : 1 ≤ dim) :
    (16 ∣ dim → suggested_num_sub_vectors dim = dim / 16) ∧
    (¬ 16 ∣ dim → 8 ∣ dim → suggested_num_sub_vectors dim = dim / 8) ∧
    (¬ 16 ∣ dim → ¬ 8 ∣ dim → suggested_num_sub_vectors dim = 1) := by
  refine ⟨fun h16 => ?_, fun h16 h8 => ?_, fun h16 h8 => ?_⟩
  · obtain ⟨c, rfl⟩ := h16
    simp [suggested_num_sub_vectors, Nat.mul_mod_right]
  · have h16m : dim % 16 ≠ 0 := fun h => h16 (Nat.dvd_of_mod_eq_zero h)
    obtain ⟨c, rfl⟩ := h8
    simp [suggested_num_sub_vectors, h16m, Nat.mul_mod_right]
  · have h16m : dim % 16 ≠ 0 := fun h => h16 (Nat.dvd_of_mod_eq_zero h)
    have h8m : dim % 8 ≠ 0 := fun h => h8 (Nat.dvd_of_mod_eq_zero h)
    simp [suggested_num_sub_vectors, h16m, h8m]

theorem suggested_num_sub_vectors_rule_witness :
    1 ≤ 24 ∧ ¬ (16 : Nat) ∣ 24 ∧ (8 : Nat) ∣ 24 ∧ suggested_num_sub_vectors 24 = 24 / 8 :=
  ⟨by decide, by decide, by decide,
    (suggested_num_sub_vectors_rule 24 (by decide)).2.1 (by decide) (by decide)⟩

/-- C8 counterexample: the claim states that dimension 64 yields 8 sub-vectors, but the
code takes the `dim % 16 == 0` branch and returns 64 / 16 = 4. -/
theorem suggested_num_sub_vectors_64_cex :
    suggested_num_sub_vectors 64 = 4 ∧ (4 : Nat) ≠ 8 := by
  constructor
  · decide
  · decide

/-- C8 (amended): for dimensions 128, 64, 24 and 17 the inferred default num_sub_vectors
is 8, 4, 3 and 1 respectively (the last case triggers the warning branch). -/
theorem suggested_num_sub_vectors_examples :
    suggested_num_sub_vectors 128 = 8 ∧
    suggested_num_sub_vectors 64 = 4 ∧
    suggested_num_sub_vectors 24 = 3 ∧
    suggested_num_sub_vectors 17 = 1 := by
  refine ⟨by decide, by decide, by decide, by decide⟩

/-- merge.rs: WhenMatchedBuilder (the builder returned by when_matched_update; its only
setter is only_if, which stores the SQL condition string). -/
structure WhenMatchedBuilder where
  condition : Option String
deriving DecidableEq, Repr

/-- merge.rs: WhenMatchedBuilder::default (condition unset). -/
def WhenMatchedBuilder.default : WhenMatchedBuilder :=
  { condition := none }

/-- merge.rs: WhenMatchedBuilder::only_if. -/
def WhenMatchedBuilder.only_if (b : WhenMatchedBuilder) (condition : String) : WhenMatchedBuilder :=
  { b with condition := some condition }

/-- merge.rs: WhenNotMatchedBuilder (no fields at this revision). -/
structure WhenNotMatchedBuilder where
deriving DecidableEq, Repr

/-- merge.rs: WhenNotMatchedBySourceBuilder. -/
inductive WhenNotMatchedBySourceBuilder where
  | Delete (filter : String)
deriving DecidableEq, Repr

/-- merge.rs: MergeInsertBuilder (the parent table reference is dropped from the model;
it only routes execute() back to NativeTable::merge_insert). -/
structure MergeInsertBuilder where
  «on» : List String
  when_matched : Option WhenMatchedBuilder
  when_not_matched : Option WhenNotMatchedBuilder
  when_not_matched_by_source : Option WhenNotMatchedBySourceBuilder
deriving DecidableEq, Repr

/-- merge.rs: MergeInsertBuilder::new (all three clauses absent). -/
def MergeInsertBuilder.new (on_cols : List String) : MergeInsertBuilder :=
  { «on» := on_cols
    when_matched := none
    when_not_matched := none
    when_not_matched_by_source := none }

/-- merge.rs: MergeInsertBuilder::when_matched_update (installs a default WhenMatchedBuilder;
the returned mutable reference is modelled by updating the stored builder with only_if
separately). -/
def MergeInsertBuilder.when_matched_update (b : MergeInsertBuilder) : MergeInsertBuilder :=
  { b with when_matched := some WhenMatchedBuilder.default }

/-- merge.rs: MergeInsertBuilder::when_not_matched_insert. -/
def MergeInsertBuilder.when_not_matched_insert (b : MergeInsertBuilder) : MergeInsertBuilder :=
  { b with when_not_matched := some {} }

/-- merge.rs: MergeInsertBuilder::when_not_matched_by_source_delete. -/
def MergeInsertBuilder.when_not_matched_by_source_delete (b : MergeInsertBuilder)
    (filter : String) : MergeInsertBuilder :=
  { b with when_not_matched_by_source := some (.Delete filter) }

/-- lance substrate WhenMatched action (DoNothing / UpdateAll / update_if).  The
update_if constructor records the SQL condition; the substrate parse step that can
reject a malformed condition is out of scope. -/
inductive WhenMatched where
  | DoNothing
  | UpdateAll
  | UpdateIf (condition : String)
deriving DecidableEq, Repr

/-- lance substrate WhenNotMatched action. -/
inductive WhenNotMatched where
  | DoNothing
  | InsertAll
deriving DecidableEq, Repr

/-- lance substrate WhenNotMatchedBySource action (Keep / delete_if). -/
inductive WhenNotMatchedBySource where
  | Keep
  | DeleteIf (filter : String)
deriving DecidableEq, Repr

/-- The three actions installed on the lance merge-insert job. -/
structure MergeActions where
  wm : WhenMatched
  wnm : WhenNotMatched
  wnmbs : WhenNotMatchedBySource
deriving DecidableEq, Repr

/-- table.rs NativeTable::merge_insert, the clause-translation part: the three matches
that map the builder's optional clauses onto lance merge actions (job construction and
execution against the dataset are substrate). -/
def NativeTable.merge_insert_actions (params : MergeInsertBuilder) : MergeActions :=
  { wm :=
      match params.when_matched with
      | none => .DoNothing
      | some when_matched =>
        match when_matched.condition with
        | none => .UpdateAll
        | some filter => .UpdateIf filter
    wnm :=
      match params.when_not_matched with
      | none => .DoNothing
      | some _ => .InsertAll
    wnmbs :=
      match params.when_not_matched_by_source with
      | none => .Keep
      | some (.Delete filter) => .DeleteIf filter }

/-- Modelled from the spec: effect of a WhenMatched action on one matched row pair
(section 4.4 table, "Matched" row).  SQL evaluation of the only_if condition against the
joined row is abstracted by condEval. -/
def WhenMatched.apply {ρ : Type} (w : WhenMatched) (condEval : String → ρ → ρ → Bool)
    (target source : ρ) : ρ :=
  match w with
  | .DoNothing => target
  | .UpdateAll => source
  | .UpdateIf c => if condEval c target source then source else target

/-- Modelled from the spec: effect of a WhenNotMatched action on one source-only row
(section 4.4 table, "Not matched" row); none means the row is dropped. -/
def WhenNotMatched.apply {ρ : Type} (w : WhenNotMatched) (source : ρ) : Option ρ :=
  match w with
  | .DoNothing => none
  | .InsertAll => some source

/-- Modelled from the spec: effect of a WhenNotMatchedBySource action on one target-only
row (section 4.4 table, "Not matched by source" row); none means the row is deleted.
SQL evaluation of the delete filter against the target row is abstracted by filtEval. -/
def WhenNotMatchedBySource.apply {ρ : Type} (w : WhenNotMatchedBySource)
    (filtEval : String → ρ → Bool) (target : ρ) : Option ρ :=
  match w with
  | .Keep => some target
  | .DeleteIf f => if filtEval f target then none else some target

/-- C1: in every merge-insert execution, an absent when_matched clause translates to
DoNothing (matched target rows unchanged) and a present one to UpdateAll (target row
replaced by the source row), or to update_if when only_if was set (replaced exactly where
the condition holds); an absent when_not_matched clause translates to DoNothing
(source-only rows dropped) and a present one to InsertAll (all inserted); an absent
when_not_matched_by_source clause translates to Keep (target-only rows kept) and a
present Delete(filter) clause to delete_if, deleting exactly the target-only rows
satisfying the filter. -/
theorem merge_insert_clause_translation {ρ : Type} (p : MergeInsertBuilder)
    (condEval : String → ρ → ρ → Bool) (filtEval : String → ρ → Bool) (t s : ρ) :
    (p.when_matched = none →
      (NativeTable.merge_insert_actions p).wm = .DoNothing ∧
      (NativeTable.merge_insert_actions p).wm.apply condEval t s = t) ∧
    (∀ wmb, p.when_matched = some wmb →
      (wmb.condition = none →
        (NativeTable.merge_insert_actions p).wm = .UpdateAll ∧
        (NativeTable.merge_insert_actions p).wm.apply condEval t s = s) ∧
      (∀ c, wmb.condition = some c →
        (NativeTable.merge_insert_actions p).wm = .UpdateIf c ∧
        (NativeTable.merge_insert_actions p).wm.apply condEval t s =
          (if condEval c t s then s else t))) ∧
    (p.when_not_matched = none →
      (NativeTable.merge_insert_actions p).wnm = .DoNothing ∧
      (NativeTable.merge_insert_actions p).wnm.apply s = none) ∧
    (∀ wnmb, p.when_not_matched = some wnmb →
      (NativeTable.merge_insert_actions p).wnm = .InsertAll ∧
      (NativeTable.merge_insert_actions p).wnm.apply s = some s) ∧
    (p.when_not_matched_by_source = none →
      (NativeTable.merge_insert_actions p).wnmbs = .Keep ∧
      (NativeTable.merge_insert_actions p).wnmbs.apply filtEval t = some t) ∧
    (∀ f, p.when_not_matched_by_source = some (.Delete f) →
      (NativeTable.merge_insert_actions p).wnmbs = .DeleteIf f ∧
      ((NativeTable.merge_insert_actions p).wnmbs.apply filtEval t = none ↔
        filtEval f t = true)) := by
  refine ⟨fun h => ?_, fun wmb h => ⟨fun hc => ?_, fun c hc => ?_⟩, fun h => ?_,
    fun wnmb h => ?_, fun h => ?_, fun f h => ?_⟩
  · simp [NativeTable.merge_insert_actions, h, WhenMatched.apply]
  · simp [NativeTable.merge_insert_actions, h, hc, WhenMatched.apply]
  · simp [NativeTable.merge_insert_actions, h, hc, WhenMatched.apply]
  · simp [NativeTable.merge_insert_actions, h, WhenNotMatched.apply]
  · simp [NativeTable.merge_insert_actions, h, WhenNotMatched.apply]
  · simp [NativeTable.merge_insert_actions, h, WhenNotMatchedBySource.apply]
  · refine ⟨by simp [NativeTable.merge_insert_actions, h], ?_⟩
    cases hft : filtEval f t <;>
      simp [NativeTable.merge_insert_actions, h, WhenNotMatchedBySource.apply, hft]

/-- Example builder with all three clauses absent (fresh merge_insert builder). -/
def mergeBuilderAbsent : MergeInsertBuilder :=
  MergeInsertBuilder.new ["id"]

/-- Example builder with all three clauses present: when_matched_update with
only_if, when_not_matched_insert, and when_not_matched_by_source_delete. -/
def mergeBuilderPresent : MergeInsertBuilder :=
  { (((MergeInsertBuilder.new ["id"]).when_matched_update).when_not_matched_insert).when_not_matched_by_source_delete "true" with
    when_matched := some (WhenMatchedBuilder.default.only_if "target.age = 0") }

theorem merge_insert_clause_translation_witness :
    (NativeTable.merge_insert_actions mergeBuilderAbsent).wm = .DoNothing ∧
    (NativeTable.merge_insert_actions mergeBuilderAbsent).wnm.apply (3 : Nat) = none ∧
    (NativeTable.merge_insert_actions mergeBuilderAbsent).wnmbs.apply
      (fun _ t => t == 7) (7 : Nat) = some 7 ∧
    (NativeTable.merge_insert_actions mergeBuilderPresent).wm = .UpdateIf "target.age = 0" ∧
    (NativeTable.merge_insert_actions mergeBuilderPresent).wnm = .InsertAll ∧
    ((NativeTable.merge_insert_actions mergeBuilderPresent).wnmbs.apply
      (fun _ t => t == 7) (7 : Nat) = none ↔ ((7 : Nat) == 7) = true) := by
  have h1 := merge_insert_clause_translation (ρ := Nat) mergeBuilderAbsent
    (fun _ t _ => t == 0) (fun _ t => t == 7) 7 3
  have h2 := merge_insert_clause_translation (ρ := Nat) mergeBuilderPresent
    (fun _ t _ => t == 0) (fun _ t => t == 7) 7 3
  exact ⟨(h1.1 rfl).1, (h1.2.2.1 rfl).2, (h1.2.2.2.2.1 rfl).2,
    ((h2.2.1 _ rfl).2 _ rfl).1, (h2.2.2.2.1 _ rfl).1, (h2.2.2.2.2.2 _ rfl).2⟩

/-- query.rs: DEFAULT_TOP_K. -/
def DEFAULT_TOP_K : Nat := 10

/-- lance_linalg DistanceType / MetricType (payload only). -/
inductive MetricType where
  | L2
  | Cosine
  | Dot
deriving DecidableEq, Repr

/-- query.rs: Select. -/
inductive Select where
  | All
  | Simple (columns : List String)
  | Projection (columns : List (String × String))
deriving DecidableEq, Repr

/-- query.rs: Query.  The parent table reference is dropped from the model (it only
routes execute_stream back to NativeTable::query); the Float32Array query vector is a
list of floats. -/
structure Query where
  column : Option String
  query_vector : Option (List Float)
  nprobes : Nat
  refine_factor : Option Nat
  metric_type : Option MetricType
  limit : Option Nat
  filter : Option String
  select : Select
  use_index : Bool
  prefilter : Bool

/-- query.rs: Query::new defaults. -/
def Query.new : Query :=
  { query_vector := none
    column := none
    limit := none
    nprobes := 20
    refine_factor := none
    metric_type := none
    use_index := true
    filter := none
    select := .All
    prefilter := false }

/-- query.rs: Query::column. -/
def Query.columnSet (q : Query) (column : String) : Query :=
  { q with column := some column }

/-- query.rs: Query::limit. -/
def Query.limitSet (q : Query) (limit : Nat) : Query :=
  { q with limit := some limit }

/-- query.rs: Query::nearest_to. -/
def Query.nearest_to (q : Query) (vector : List Float) : Query :=
  { q with query_vector := some vector }

/-- query.rs: Query::filter. -/
def Query.filterSet (q : Query) (filter : String) : Query :=
  { q with filter := some filter }

/-- query.rs: Query::prefilter. -/
def Query.prefilterSet (q : Query) (prefilter : Bool) : Query :=
  { q with prefilter := prefilter }

/-- Modelled from the spec: the dataset substrate scanner (section 6), recording the
requests NativeTable::query issues against it.  nearest_params holds the column, query
vector and k of a Scanner::nearest call; limit_val the row limit of a Scanner::limit
call (none = unlimited). -/
structure Scanner where
  nearest_params : Option (String × List Float × Nat)
  limit_val : Option Int
  nprobes : Nat
  use_index : Bool
  prefilter : Bool
  projection : Select
  filter : Option String
  refine_factor : Option Nat
  metric : Option MetricType

/-- Modelled from the spec: Dataset::scan gives a fresh scanner with nothing requested
yet (the initial nprobes / use_index / prefilter are substrate defaults; the engine
overwrites all three before the stream is built). -/
def Scanner.scan : Scanner :=
  { nearest_params := none
    limit_val := none
    nprobes := 1
    use_index := true
    prefilter := false
    projection := .All
    filter := none
    refine_factor := none
    metric := none }

/-- Scanner::nearest. -/
def Scanner.nearest (s : Scanner) (column : String) (v : List Float) (k : Nat) : Scanner :=
  { s with nearest_params := some (column, v, k) }

/-- Scanner::limit (the source passes offset = None; only the limit is recorded). -/
def Scanner.limit (s : Scanner) (l : Option Int) : Scanner :=
  { s with limit_val := l }

/-- Scanner::nprobs. -/
def Scanner.nprobs (s : Scanner) (n : Nat) : Scanner :=
  { s with nprobes := n }

/-- Scanner::use_index setter. -/
def Scanner.useIndexSet (s : Scanner) (b : Bool) : Scanner :=
  { s with use_index := b }

/-- Scanner::prefilter setter. -/
def Scanner.prefilterSet (s : Scanner) (b : Bool) : Scanner :=
  { s with prefilter := b }

/-- Scanner::project. -/
def Scanner.project (s : Scanner) (cols : List String) : Scanner :=
  { s with projection := .Simple cols }

/-- Scanner::project_with_transform. -/
def Scanner.project_with_transform (s : Scanner) (cols : List (String × String)) : Scanner :=
  { s with projection := .Projection cols }

/-- Scanner::filter setter. -/
def Scanner.filterSet (s : Scanner) (f : String) : Scanner :=
  { s with filter := some f }

/-- Scanner::refine. -/
def Scanner.refine (s : Scanner) (rf : Nat) : Scanner :=
  { s with refine_factor := some rf }

/-- Scanner::distance_metric. -/
def Scanner.distance_metric (s : Scanner) (mt : MetricType) : Scanner :=
  { s with metric := some mt }


/-- Modelled from the spec: utils.rs default_vector_column (utils.rs is not among the
provided sources).  Section 4.2: scan the schema for a FixedSizeList of floating values
whose list size equals the query vector length; fail with Store if zero or more than one
such column exists. -/
def default_vector_column (schema : ArrowSchema) (dim : Int) : Except Error String :=
  match schema.fields.filter (fun f =>
      match f.data_type with
      | .FixedSizeList item d => item.is_floating && d == dim
      | _ => false) with
  | [] => .error (.Store s!"No vector column found to match with the query vector dimension {dim}")
  | [f] => .ok f.name
  | _ => .error (.Store s!"More than one vector column found to match with the query vector dimension {dim}")

/-- table.rs NativeTable::query: translation of a Query into scanner requests against
the dataset read view.  The ? operators on fallible calls are written as explicit
matches; the final try_into_stream call is substrate and not modelled, so the function
returns the configured scanner.  Substrate-side fallibility of Scanner::nearest /
project / filter is not modelled (the source also discards the Result of
Scanner::filter); the Store checks of this function are modelled exactly, with
query_vector.len() as i32 rendered as usizeToI32 (the source messages quote the column
name; the quotes are omitted here). -/
def NativeTable.query (schema : ArrowSchema) (query : Query) : Except Error Scanner :=
  let scanner := Scanner.scan
  let head : Except Error Scanner :=
    match query.query_vector with
    | some query_vector =>
      -- If there is a vector query, default to limit=10 if unspecified
      let columnE : Except Error String :=
        match query.column with
        | some col => .ok col
        | none =>
          -- Infer a vector column with the same dimension of the query vector.
          default_vector_column schema (usizeToI32 query_vector.length)
      match columnE with
      | .error e => .error e
      | .ok column =>
        match schema.field column with
        | none => .error (.Store s!"Column {column} not found in dataset schema")
        | some field =>
          if !(match field.data_type with
              | .FixedSizeList f dim => f.is_floating && dim == usizeToI32 query_vector.length
              | _ => false) then
            .error (.Store s!"Vector column {column} does not match the dimension of the query vector: dim={query_vector.length}")
          else
            .ok (scanner.nearest column query_vector (query.limit.getD DEFAULT_TOP_K))
    | none =>
      -- If there is no vector query, it is ok to not have a limit
      .ok (scanner.limit (query.limit.map (fun l => usizeToI64 l)))
  match head with
  | .error e => .error e
  | .ok scanner =>
    let scanner := scanner.nprobs query.nprobes
    let scanner := scanner.useIndexSet query.use_index
    let scanner := scanner.prefilterSet query.prefilter
    let scanner :=
      match query.select with
      | .Simple sel => scanner.project sel
      | .Projection sel => scanner.project_with_transform sel
      | .All => scanner
    let scanner :=
      match query.filter with
      | some f => scanner.filterSet f
      | none => scanner
    let scanner :=
      match query.refine_factor with
      | some rf => scanner.refine rf
      | none => scanner
    let scanner :=
      match query.metric_type with
      | some mt => scanner.distance_metric mt
      | none => scanner
    .ok scanner

/-- C2: for every query executed through execute_stream with no limit given, if a query
vector is set the scanner is asked for the nearest DEFAULT_TOP_K = 10 rows, and if no
query vector is set no row limit is applied (and no nearest request is made). -/
theorem query_default_limit (schema : ArrowSchema) (q : Query) (hl : q.limit = none) :
    (∀ v s, q.query_vector = some v → NativeTable.query schema q = .ok s →
      s.nearest_params.map (fun p => p.2.2) = some DEFAULT_TOP_K ∧ DEFAULT_TOP_K = 10) ∧
    (∀ s, q.query_vector = none → NativeTable.query schema q = .ok s →
      s.limit_val = none ∧ s.nearest_params = none) := by
  constructor
  · intro v s hv hs
    unfold NativeTable.query at hs
    simp only [hv, hl] at hs
    refine ⟨?_, rfl⟩
    split at hs
    · exact absurd hs.symm (by simp)
    · rename_i scanner heq
      split at heq
      · exact absurd heq.symm (by simp)
      · rename_i column hcol
        split at heq
        · exact absurd heq.symm (by simp)
        · split at heq
          · exact absurd heq.symm (by simp)
          · rw [Except.ok.injEq] at heq
            rw [Except.ok.injEq] at hs
            subst heq
            subst hs
            repeat' split
            all_goals
              simp [Scanner.nearest, Scanner.nprobs, Scanner.useIndexSet, Scanner.prefilterSet,
                Scanner.project, Scanner.project_with_transform, Scanner.filterSet,
                Scanner.refine, Scanner.distance_metric]
  · intro s hv hs
    unfold NativeTable.query at hs
    simp only [hv, hl, Option.map_none'] at hs
    rw [Except.ok.injEq] at hs
    subst hs
    repeat' split
    all_goals
      simp [Scanner.scan, Scanner.limit, Scanner.nprobs, Scanner.useIndexSet,
        Scanner.prefilterSet, Scanner.project, Scanner.project_with_transform,
        Scanner.filterSet, Scanner.refine, Scanner.distance_metric]

/-- Example schema with a single 2-dimensional float vector column. -/
def schemaW : ArrowSchema :=
  { fields := [{ name := "vector", data_type := .FixedSizeList .Float32 2 }] }

/-- Example vector query with no limit set. -/
def queryVecW : Query := Query.new.nearest_to [0.5, 0.5]

/-- Example plain query (no vector, no limit). -/
def queryPlainW : Query := Query.new

/-- Scanner produced for queryVecW against schemaW. -/
def scannerVecW : Scanner :=
  { nearest_params := some ("vector", [0.5, 0.5], 10)
    limit_val := none
    nprobes := 20
    use_index := true
    prefilter := false
    projection := .All
    filter := none
    refine_factor := none
    metric := none }

/-- Scanner produced for queryPlainW against schemaW. -/
def scannerPlainW : Scanner :=
  { nearest_params := none
    limit_val := none
    nprobes := 20
    use_index := true
    prefilter := false
    projection := .All
    filter := none
    refine_factor := none
    metric := none }

theorem query_default_limit_witness :
    scannerVecW.nearest_params.map (fun p => p.2.2) = some DEFAULT_TOP_K ∧
    DEFAULT_TOP_K = 10 ∧
    scannerPlainW.limit_val = none ∧ scannerPlainW.nearest_params = none := by
  have h1 := (query_default_limit schemaW queryVecW rfl).1 [0.5, 0.5] scannerVecW rfl rfl
  have h2 := (query_default_limit schemaW queryPlainW rfl).2 scannerPlainW rfl rfl
  exact ⟨h1.1, h1.2, h2.1, h2.2⟩

/-- The explicit-column validation condition of NativeTable::query: the named column
exists in the schema and its type is FixedSizeList over floating values with list size
equal to the query vector length cast to i32 (the source compares
dim == query_vector.len() as i32). -/
def explicitColumnOk (schema : ArrowSchema) (column : String) (d : Nat) : Bool :=
  match schema.field column with
  | none => false
  | some field =>
    match field.data_type with
    | .FixedSizeList f dim => f.is_floating && dim == usizeToI32 d
    | _ => false

/-- C3 (amended): for every query with a query vector v and an explicitly given column
name, execute_stream returns a Store error whenever the named column is absent from the
schema, or present but not of type FixedSizeList over a floating element type with list
size equal to v.length cast to i32 (equal to v.length whenever v.length < 2^31);
otherwise no such error is raised at this check. -/
theorem query_explicit_column_check (schema : ArrowSchema) (q : Query) (col : String)
    (v : List Float) (hv : q.query_vector = some v) (hc : q.column = some col) :
    (explicitColumnOk schema col v.length = false →
      ∃ m, NativeTable.query schema q = .error (.Store m)) ∧
    (explicitColumnOk schema col v.length = true →
      (NativeTable.query schema q).isOk = true) := by
  unfold NativeTable.query explicitColumnOk
  simp only [hv, hc]
  rcases hf : schema.field col with _ | field
  · exact ⟨fun _ => ⟨_, rfl⟩, fun h => by simp at h⟩
  · simp only [hf]
    cases hb : (match field.data_type with
        | DataType.FixedSizeList f dim => f.is_floating && dim == usizeToI32 v.length
        | _ => false)
    · constructor
      · intro _
        simp only [hb, Bool.not_false, if_true]
        exact ⟨_, rfl⟩
      · intro h
        simp [hb] at h
    · constructor
      · intro h
        simp [hb] at h
      · intro _
        simp only [hb, Bool.not_true, if_false]
        rfl

/-- Schema for the i32-cast counterexample: one float vector column of list size 3. -/
def schemaCex : ArrowSchema :=
  { fields := [{ name := "v", data_type := .FixedSizeList .Float32 3 }] }

/-- Query naming column "v" whose query vector length is 2^32 + 3. -/
def queryCex : Query :=
  (Query.new.columnSet "v").nearest_to (List.replicate (2 ^ 32 + 3) 0.0)

/-- Any query against schemaCex naming column "v" whose vector length casts to 3 as an
i32 passes the explicit-column check. -/
theorem query_cast_helper (v : List Float) (hlen : usizeToI32 v.length = 3) :
    (NativeTable.query schemaCex ((Query.new.columnSet "v").nearest_to v)).isOk = true := by
  unfold NativeTable.query
  simp only [Query.new, Query.columnSet, Query.nearest_to]
  have hfield : schemaCex.field "v" =
      some { name := "v", data_type := .FixedSizeList .Float32 3 } := rfl
  simp only [hfield, hlen]
  rfl

/-- C3 counterexample: the claim requires a Store error whenever the named column is
present but its list size differs from the query vector length d.  Here column "v" has
list size 3 and the query vector has length 2^32 + 3 ≠ 3, yet NativeTable::query
succeeds, because the source compares the size against query_vector.len() as i32, which
wraps 2^32 + 3 to 3. -/
theorem query_explicit_column_i32_cast_cex :
    queryCex.query_vector.map List.length = some (2 ^ 32 + 3) ∧
    (2 ^ 32 + 3 : Nat) ≠ 3 ∧
    (NativeTable.query schemaCex queryCex).isOk = true := by
  have hqv : queryCex.query_vector = some (List.replicate (2 ^ 32 + 3) 0.0) := rfl
  refine ⟨?_, by norm_num, ?_⟩
  · rw [hqv, Option.map_some', List.length_replicate]
  · exact query_cast_helper (List.replicate (2 ^ 32 + 3) 0.0)
      (by rw [List.length_replicate]; norm_num [usizeToI32])

/-- Query naming the existing column "vector" with a length-2 vector. -/
def queryColGoodW : Query := (Query.new.columnSet "vector").nearest_to [0.5, 0.5]

/-- Query naming a column absent from schemaW. -/
def queryColMissingW : Query := (Query.new.columnSet "missing").nearest_to [0.5, 0.5]

theorem query_explicit_column_check_witness :
    explicitColumnOk schemaW "vector" 2 = true ∧
    (NativeTable.query schemaW queryColGoodW).isOk = true ∧
    explicitColumnOk schemaW "missing" 2 = false ∧
    (∃ m, NativeTable.query schemaW queryColMissingW = .error (.Store m)) := by
  refine ⟨rfl, ?_, rfl, ?_⟩
  · exact (query_explicit_column_check schemaW queryColGoodW "vector" [0.5, 0.5] rfl rfl).2 rfl
  · exact (query_explicit_column_check schemaW queryColMissingW "missing" [0.5, 0.5] rfl rfl).1 rfl

/-- The per-field filter of create_ivf_pq_index column inference: FixedSizeList with a
floating element type. -/
def isFloatingVectorField (f : ArrowField) : Bool :=
  match f.data_type with
  | .FixedSizeList inner_type _ => inner_type.is_floating
  | _ => false

/-- table.rs NativeTable::create_ivf_pq_index, column-selection part: with explicit
columns exactly one is required and looked up by name; without, the sole floating
FixedSizeList column is inferred (Schema error on zero or multiple matches).  The rest
of the source function (num_partitions / num_sub_vectors defaulting and the dataset
create_index dispatch) is substrate-bound and not part of this selection step. -/
def NativeTable.ivf_pq_index_field (columns : Option (List String))
    (schema : ArrowSchema) : Except Error ArrowField :=
  match columns with
  | some cols =>
    match cols with
    | [c] => schema.field_with_name c
    | _ => .error (.Schema "Only one column is supported for index")
  | none =>
    let vector_fields := schema.fields.filter isFloatingVectorField
    match vector_fields with
    | [] => .error (.Schema "No vector columns found in the schema")
    | [f] => .ok f
    | _ => .error (.Schema "Multiple vector columns found in the schema, please specify the column to index")

/-- table.rs NativeTable::supported_btree_data_type. -/
def NativeTable.supported_btree_data_type (dtype : DataType) : Bool :=
  dtype.is_integer || dtype.is_floating ||
    (match dtype with
     | .Boolean | .Utf8 | .Time32 _ | .Time64 _ | .Date32 | .Date64 | .Timestamp _ _ => true
     | _ => false)

/-- table.rs NativeTable::create_btree_index, validation part: column selection then the
supported-type check; returns the field that would be indexed (the dataset create_index
dispatch is substrate).  The source's unsupported-type Schema message also interpolates
the arrow Display rendering of the type, elided here. -/
def NativeTable.create_btree_index (columns : Option (List String))
    (schema : ArrowSchema) : Except Error ArrowField :=
  match columns with
  | some cols =>
    match cols with
    | [c] =>
      match schema.field_with_name c with
      | .error e => .error e
      | .ok field =>
        if ! NativeTable.supported_btree_data_type field.data_type then
          .error (.Schema s!"Column {field.name} has type which is not a supported type for BTree index")
        else
          .ok field
    | _ => .error (.Schema "Only one column is supported for index")
  | none => .error (.InvalidInput "When building a btree index the column must be specified")

/-- C4: for every IVF-PQ index build without an explicit column: if the schema contains
exactly one floating FixedSizeList column, that column is used and the build proceeds
past this check; with zero such columns, or more than one, the build fails with a
Schema error. -/
theorem ivf_pq_column_inference (schema : ArrowSchema) :
    (schema.fields.countP (fun f => isFloatingVectorField f) = 0 →
      NativeTable.ivf_pq_index_field none schema =
        .error (.Schema "No vector columns found in the schema")) ∧
    (schema.fields.countP (fun f => isFloatingVectorField f) = 1 →
      ∃ f, f ∈ schema.fields ∧ isFloatingVectorField f = true ∧
        NativeTable.ivf_pq_index_field none schema = .ok f) ∧
    (2 ≤ schema.fields.countP (fun f => isFloatingVectorField f) →
      NativeTable.ivf_pq_index_field none schema =
        .error (.Schema "Multiple vector columns found in the schema, please specify the column to index")) := by
  refine ⟨fun h0 => ?_, fun h1 => ?_, fun h2 => ?_⟩
  · rw [List.countP_eq_length_filter] at h0
    have hfil : schema.fields.filter (fun f => isFloatingVectorField f) = [] :=
      List.length_eq_zero.mp h0
    simp [NativeTable.ivf_pq_index_field, hfil]
  · rw [List.countP_eq_length_filter] at h1
    obtain ⟨f, hf⟩ := List.length_eq_one.mp h1
    have hmem : f ∈ schema.fields.filter (fun f => isFloatingVectorField f) := by
      rw [hf]
      exact List.mem_singleton_self f
    refine ⟨f, (List.mem_filter.mp hmem).1, (List.mem_filter.mp hmem).2, ?_⟩
    simp [NativeTable.ivf_pq_index_field, hf]
  · rw [List.countP_eq_length_filter] at h2
    rcases hfil : schema.fields.filter (fun f => isFloatingVectorField f) with _ | ⟨a, _ | ⟨b, t⟩⟩
    · rw [hfil] at h2
      simp at h2
    · rw [hfil] at h2
      simp at h2
    · simp [NativeTable.ivf_pq_index_field, hfil]

/-- Schema with no vector column. -/
def schemaNoVecW : ArrowSchema :=
  { fields := [{ name := "i", data_type := .Int32 }] }

/-- Schema with two float vector columns. -/
def schemaTwoVecW : ArrowSchema :=
  { fields := [{ name := "v1", data_type := .FixedSizeList .Float32 4 },
               { name := "v2", data_type := .FixedSizeList .Float64 8 }] }

theorem ivf_pq_column_inference_witness :
    NativeTable.ivf_pq_index_field none schemaNoVecW =
      .error (.Schema "No vector columns found in the schema") ∧
    (∃ f, f ∈ schemaW.fields ∧ isFloatingVectorField f = true ∧
      NativeTable.ivf_pq_index_field none schemaW = .ok f) ∧
    NativeTable.ivf_pq_index_field none schemaTwoVecW =
      .error (.Schema "Multiple vector columns found in the schema, please specify the column to index") := by
  refine ⟨(ivf_pq_column_inference schemaNoVecW).1 (by decide),
    (ivf_pq_column_inference schemaW).2.1 (by decide),
    (ivf_pq_column_inference schemaTwoVecW).2.2 (by decide)⟩

/-- C5: for every B-tree index build: with no column set the build fails with
InvalidInput; with a set column (present in the schema) whose type is integer, floating,
boolean, UTF-8, Date32/64, Time32/64 or Timestamp the type check passes and the field is
accepted; with any other type (including large UTF-8) the build fails with a Schema
error.  The final clause characterizes supported_btree_data_type exactly. -/
theorem btree_index_validation (schema : ArrowSchema) (c : String) (f : ArrowField) :
    (NativeTable.create_btree_index none schema =
      .error (.InvalidInput "When building a btree index the column must be specified")) ∧
    (schema.field_with_name c = .ok f →
      NativeTable.supported_btree_data_type f.data_type = true →
      NativeTable.create_btree_index (some [c]) schema = .ok f) ∧
    (schema.field_with_name c = .ok f →
      NativeTable.supported_btree_data_type f.data_type = false →
      ∃ m, NativeTable.create_btree_index (some [c]) schema = .error (.Schema m)) ∧
    NativeTable.supported_btree_data_type DataType.LargeUtf8 = false ∧
    (∀ dt : DataType, NativeTable.supported_btree_data_type dt = true ↔
      (dt.is_integer = true ∨ dt.is_floating = true ∨ dt = .Boolean ∨ dt = .Utf8 ∨
        (∃ u, dt = .Time32 u) ∨ (∃ u, dt = .Time64 u) ∨ dt = .Date32 ∨ dt = .Date64 ∨
        (∃ u tz, dt = .Timestamp u tz))) := by
  refine ⟨rfl, fun hf hsup => ?_, fun hf hsup => ?_, rfl, fun dt => ?_⟩
  · simp [NativeTable.create_btree_index, hf, hsup]
  · simp [NativeTable.create_btree_index, hf, hsup]
  · cases dt <;>
      simp [NativeTable.supported_btree_data_type, DataType.is_integer, DataType.is_floating]

/-- Schema with one integer column and one large UTF-8 column. -/
def schemaBtreeW : ArrowSchema :=
  { fields := [{ name := "a", data_type := .Int32 },
               { name := "s", data_type := .LargeUtf8 }] }

theorem btree_index_validation_witness :
    NativeTable.create_btree_index none schemaBtreeW =
      .error (.InvalidInput "When building a btree index the column must be specified") ∧
    NativeTable.create_btree_index (some ["a"]) schemaBtreeW =
      .ok { name := "a", data_type := .Int32 } ∧
    (∃ m, NativeTable.create_btree_index (some ["s"]) schemaBtreeW =
      .error (.Schema m)) := by
  have h := btree_index_validation schemaBtreeW "a" { name := "a", data_type := .Int32 }
  have h2 := btree_index_validation schemaBtreeW "s" { name := "s", data_type := .LargeUtf8 }
  exact ⟨h.1, h.2.1 rfl (by decide), h2.2.2.1 rfl (by decide)⟩

/-- index.rs: IndexBuilder (the parent table reference is dropped from the model; the
scalar() / vector() / btree() / ivf_pq() dispatchers pass this state through unchanged,
and the IvfPqIndexBuilder setters never touch it). -/
structure IndexBuilder where
  columns : Option (List String)
  replace : Bool
deriving DecidableEq, Repr

/-- index.rs: IndexBuilder::new (columns unset, replace = true). -/
def IndexBuilder.new : IndexBuilder :=
  { columns := none, replace := true }

/-- index.rs: IndexBuilder::column (always stores a singleton list; a later call
overwrites an earlier one). -/
def IndexBuilder.column (b : IndexBuilder) (column : String) : IndexBuilder :=
  { b with columns := some [column] }

/-- index.rs: IndexBuilder::replace setter. -/
def IndexBuilder.replaceSet (b : IndexBuilder) (v : Bool) : IndexBuilder :=
  { b with replace := v }

/-- One public-API mutation of an IndexBuilder before dispatch. -/
inductive IndexBuilderOp where
  | column (c : String)
  | replaceSet (v : Bool)
deriving DecidableEq, Repr

/-- Apply a sequence of public-API calls to an IndexBuilder. -/
def applyIndexBuilderOps (ops : List IndexBuilderOp) (b : IndexBuilder) : IndexBuilder :=
  match ops with
  | [] => b
  | op :: rest =>
    applyIndexBuilderOps rest
      (match op with
       | .column c => b.column c
       | .replaceSet v => b.replaceSet v)

/-- C10: for every IndexBuilder configured through the public API (any sequence of
column / replace calls on a fresh builder), the columns field is either unset or a
singleton list, so the guard columns.len() != 1 of the "Only one column is supported for
index" Schema branch in create_btree_index and create_ivf_pq_index is never taken. -/
theorem index_builder_singleton_columns (ops : List IndexBuilderOp) :
    ((applyIndexBuilderOps ops IndexBuilder.new).columns = none ∨
      ∃ c, (applyIndexBuilderOps ops IndexBuilder.new).columns = some [c]) ∧
    (∀ l, (applyIndexBuilderOps ops IndexBuilder.new).columns = some l → l.length = 1) := by
  have key : ∀ (ops : List IndexBuilderOp) (b : IndexBuilder),
      (b.columns = none ∨ ∃ c, b.columns = some [c]) →
      ((applyIndexBuilderOps ops b).columns = none ∨
        ∃ c, (applyIndexBuilderOps ops b).columns = some [c]) := by
    intro ops
    induction ops with
    | nil => intro b hb; exact hb
    | cons op rest ih =>
      intro b hb
      cases op with
      | column c =>
        exact ih _ (Or.inr ⟨c, rfl⟩)
      | replaceSet v =>
        cases hb with
        | inl h => exact ih _ (Or.inl h)
        | inr h =>
          obtain ⟨c, hc⟩ := h
          exact ih _ (Or.inr ⟨c, hc⟩)
  have hmain := key ops IndexBuilder.new (Or.inl rfl)
  refine ⟨hmain, fun l hl => ?_⟩
  cases hmain with
  | inl h => rw [h] at hl; cases hl
  | inr h =>
    obtain ⟨c, hc⟩ := h
    rw [hc] at hl
    cases hl
    rfl

theorem index_builder_singleton_columns_witness :
    (applyIndexBuilderOps [.column "a", .replaceSet false, .column "b"] IndexBuilder.new).columns
      = some ["b"] ∧ (["b"] : List String).length = 1 := by
  refine ⟨by decide, ?_⟩
  exact (index_builder_singleton_columns [.column "a", .replaceSet false, .column "b"]).2
    ["b"] (by decide)

/-- table.rs: AddDataMode (Append is the default). -/
inductive AddDataMode where
  | Append
  | Overwrite
deriving DecidableEq, Repr

/-- lance substrate WriteMode, as selected by NativeTable::add (the substrate also has a
Create mode, unreachable from the add flow modelled here). -/
inductive WriteMode where
  | Append
  | Overwrite
deriving DecidableEq, Repr

/-- lance substrate WriteParams: only the mode field is read by the modelled flow. -/
structure WriteParams where
  mode : WriteMode
deriving DecidableEq, Repr

/-- table.rs: WriteOptions (lance_write_params defaults to None). -/
structure WriteOptions where
  lance_write_params : Option WriteParams
deriving DecidableEq, Repr

/-- table.rs: WriteOptions::default. -/
def WriteOptions.default : WriteOptions :=
  { lance_write_params := none }

/-- Modelled from the spec: the versioned dataset substrate, reduced to the row count
the claim observes (section 6 substrate interface; section 8 property 1). -/
structure Dataset where
  rows : Nat
deriving DecidableEq, Repr

/-- Modelled from the spec: Dataset::write at the table's uri (section 4.5 / section 8
property 1): append mode adds the stream's rows to the dataset at the uri, overwrite
mode replaces them.  The stream is reduced to its row count. -/
def Dataset.write (current : Dataset) (stream_rows : Nat) (params : WriteParams) : Dataset :=
  match params.mode with
  | .Append => { rows := current.rows + stream_rows }
  | .Overwrite => { rows := stream_rows }

/-- table.rs: NativeTable, reduced to the dataset handle the add flow touches. -/
structure NativeTableState where
  dataset : Dataset
deriving DecidableEq, Repr

/-- table.rs: AddDataBuilder (the parent table reference is dropped from the model; the
data stream is reduced to its row count). -/
structure AddDataBuilder where
  data : Nat
  mode : AddDataMode
  write_options : WriteOptions
deriving DecidableEq, Repr

/-- table.rs: AddDataBuilder::mode. -/
def AddDataBuilder.modeSet (b : AddDataBuilder) (mode : AddDataMode) : AddDataBuilder :=
  { b with mode := mode }

/-- table.rs: AddDataBuilder::write_options setter. -/
def AddDataBuilder.write_optionsSet (b : AddDataBuilder) (options : WriteOptions) : AddDataBuilder :=
  { b with write_options := options }

/-- table.rs: Table::add — builds the AddDataBuilder with mode Append and default
write options. -/
def Table.add (batches : Nat) : AddDataBuilder :=
  { data := batches
    mode := .Append
    write_options := WriteOptions.default }

/-- table.rs: NativeTable::add — chooses lance write params (an explicit
write_options.lance_write_params overrides the mode field), writes the stream through
the substrate, and installs the result via set_latest. -/
def NativeTable.add (t : NativeTableState) (add : AddDataBuilder) : NativeTableState :=
  let lance_params :=
    add.write_options.lance_write_params.getD
      { mode :=
          match add.mode with
          | .Append => .Append
          | .Overwrite => .Overwrite }
  let dataset := t.dataset.write add.data lance_params
  { t with dataset := dataset }

/-- table.rs: NativeTable::count_rows with no filter returns the dataset row count (with
a filter it counts through a substrate scanner, which this dataset model does not
carry). -/
def NativeTable.count_rows (t : NativeTableState) : Nat :=
  t.dataset.rows

/-- C9: the builder returned by Table::add defaults to Append mode with no explicit
write options, and executing it on a table of n rows with a stream of k rows leaves
count_rows(None) = n + k. -/
theorem add_default_append_count (n k : Nat) :
    (Table.add k).mode = AddDataMode.Append ∧
    (Table.add k).write_options.lance_write_params = none ∧
    NativeTable.count_rows (NativeTable.add { dataset := { rows := n } } (Table.add k)) = n + k := by
  refine ⟨rfl, rfl, ?_⟩
  simp [NativeTable.add, NativeTable.count_rows, Table.add, WriteOptions.default,
    Dataset.write]
